import Mathlib

/-!
Verification of the settings-resolution and streaming-synthesis pipeline of a
command-line TTS client. The definitions below are a shallow embedding of
`src/tts.ts` (the `Tts` class: `resolveOpts`, `calculateOutputOpts`,
`calculateUtterance`, `maybeAddContext`, `synthesize`, `synthesizeStreaming`)
together with `src/history.ts` and the `--last` branch of `Voices.save` in
`src/voices.ts`. JavaScript `T | null | undefined` values are modelled as
`Option`; JavaScript truthiness on strings, numbers and booleans is made
explicit by the `truthy*` helpers; base64 decoding (`Buffer.from(s, 'base64')`)
is an external collaborator and is passed in as an abstract `decode` function.
-/

namespace HumeCli

/-- `play` option: `'all' | 'first' | 'off'`. -/
inductive PlayMode
  | all
  | first
  | off
deriving Repr, DecidableEq

/-- Audio format: `'wav' | 'mp3' | 'pcm'`. -/
inductive AudioFormat
  | wav
  | mp3
  | pcm
deriving Repr, DecidableEq

/-- Voice provider: `'CUSTOM_VOICE' | 'HUME_AI'`. -/
inductive Provider
  | CUSTOM_VOICE
  | HUME_AI
deriving Repr, DecidableEq

/-- JavaScript truthiness of a possibly absent string: `undefined`, `null` and
the empty string are falsy. -/
def truthyStr : Option String → Bool
  | none => false
  | some s => s != ""

/-- JavaScript truthiness of a possibly absent number: absent and `0` are falsy. -/
def truthyNat : Option Nat → Bool
  | none => false
  | some n => n != 0

/-- JavaScript truthiness of a possibly absent boolean. -/
def truthyBool : Option Bool → Bool
  | none => false
  | some b => b

/-- The `tts` section of `ConfigData` (`src/config.ts`). The field `prefix` of
the source is called `pfx` here because of Lean parsing constraints. The
declared TypeScript type has no `instantMode` key, but `resolveOpts` reads
`session.tts?.instantMode` at runtime (the config object is plain JSON), so the
field is included to model that read. -/
structure ConfigTts where
  voiceName : Option String := none
  voiceId : Option String := none
  description : Option String := none
  outputDir : Option String := none
  pfx : Option String := none
  play : Option PlayMode := none
  format : Option AudioFormat := none
  numGenerations : Option Nat := none
  last : Option Bool := none
  lastIndex : Option Int := none
  playCommand : Option String := none
  presetVoice : Option Bool := none
  speed : Option Rat := none
  trailingSilence : Option Rat := none
  streaming : Option Bool := none
  instantMode : Option Bool := none
deriving Repr, DecidableEq

/-- `ConfigData` (`src/config.ts`): one persisted configuration record, used
for both the global config and the session config. -/
structure ConfigData where
  tts : Option ConfigTts := none
  json : Option Bool := none
  pretty : Option Bool := none
  apiKey : Option String := none
  baseUrl : Option String := none
deriving Repr, DecidableEq

/-- Raw command-line options for `tts` (`SynthesisOpts` in `src/tts.ts`),
before cascade resolution. `prefix` is called `pfx`. -/
structure SynthesisOpts where
  text : String
  voiceName : Option String := none
  voiceId : Option String := none
  description : Option String := none
  contextGenerationId : Option String := none
  numGenerations : Option Nat := none
  outputFilePath : Option String := none
  outputDir : Option String := none
  pfx : Option String := none
  play : Option PlayMode := none
  format : Option AudioFormat := none
  last : Option Bool := none
  lastIndex : Option Int := none
  playCommand : Option String := none
  presetVoice : Option Bool := none
  provider : Option Provider := none
  speed : Option Rat := none
  trailingSilence : Option Rat := none
  streaming : Option Bool := none
  instantMode : Option Bool := none
deriving Repr, DecidableEq

/-- Fully resolved options: the record returned by `Tts.resolveOpts`. -/
structure ResolvedOpts where
  text : String
  provider : Option Provider
  description : Option String
  contextGenerationId : Option String
  voiceName : Option String
  voiceId : Option String
  numGenerations : Nat
  outputFilePath : String
  outputDir : String
  pfx : String
  play : PlayMode
  format : AudioFormat
  last : Bool
  lastIndex : Option Int
  playCommand : Option String
  presetVoice : Bool
  speed : Option Rat
  trailingSilence : Option Rat
  streaming : Bool
  instantMode : Bool
deriving Repr, DecidableEq

/-- A cascade layer lookup tagged with the priority of its source
(the anonymous record produced by `withPriority` in `resolveOpts`). -/
structure Prioritized (α : Type) where
  priority : Nat
  item : α
deriving Repr, DecidableEq

/-- `withPriority` in `resolveOpts`: `null`/`undefined` is absent, any other
value is tagged with the priority of the layer it came from. -/
def withPriority {α : Type} (p : Nat) (item : Option α) : Option (Prioritized α) :=
  item.map fun v => { priority := p, item := v }

/-- `osgd` = "opts else session else global else defaults" in `resolveOpts`:
the four-layer cascade with priorities CLI = 3, session = 2, global = 1,
built-in default = 0. -/
def osgd {α : Type} (cli sess glob : Option α) (dflt : α) : Prioritized α :=
  (withPriority 3 cli).getD
    ((withPriority 2 sess).getD
      ((withPriority 1 glob).getD { priority := 0, item := dflt }))

/-- `osgd` for a field whose built-in default is `null` (so the resolved item
is itself possibly null). -/
def osgdN {α : Type} (cli sess glob : Option α) : Prioritized (Option α) :=
  osgd (cli.map some) (sess.map some) (glob.map some) none

/-- `od` = "opts else defaults" in `resolveOpts`: the two-layer cascade used
for `contextGenerationId` and `outputFilePath`. -/
def od {α : Type} (cli : Option α) (dflt : α) : Prioritized α :=
  (withPriority 1 cli).getD { priority := 0, item := dflt }

/-- `od` for a field whose built-in default is `null`. -/
def odN {α : Type} (cli : Option α) : Prioritized (Option α) :=
  od (cli.map some) none

/-- The error taxonomy: each constructor corresponds to one distinct `throw`
site of the embedded code, carrying the data interpolated into its message. -/
inductive TtsError
  | mutuallyExclusive (a b : String)
  | numGenerationsWithOutputFilePath
  | outputDirNotSet
  | prefixNotSet
  | noPreviousGeneration
  | lastIndexRange (n : Nat)
  | instantModeRequiresStreaming
  | instantModeRequiresSingleGeneration
  | instantModeRequiresVoice
  | apiKeyNotSet
  | noPreviousGenerationToSave
  | saveLastIndexRange (n : Nat)
  | mustSpecifyGenerationIdOrLast
deriving Repr, DecidableEq

/-- The `description` cascade of `resolveOpts` (`osgd('description')`). -/
def resDescription (g s : ConfigData) (o : SynthesisOpts) : Prioritized (Option String) :=
  osgdN o.description (s.tts.bind (·.description)) (g.tts.bind (·.description))

/-- The `voiceName` cascade of `resolveOpts` (`osgd('voiceName')`), before the
cross-field override. -/
def resVoiceName (g s : ConfigData) (o : SynthesisOpts) : Prioritized (Option String) :=
  osgdN o.voiceName (s.tts.bind (·.voiceName)) (g.tts.bind (·.voiceName))

/-- The `voiceId` cascade of `resolveOpts` (`osgd('voiceId')`), before the
cross-field override. -/
def resVoiceId (g s : ConfigData) (o : SynthesisOpts) : Prioritized (Option String) :=
  osgdN o.voiceId (s.tts.bind (·.voiceId)) (g.tts.bind (·.voiceId))

/-- The `numGenerations` cascade of `resolveOpts`; built-in default 1. -/
def resNumGenerations (g s : ConfigData) (o : SynthesisOpts) : Prioritized Nat :=
  osgd o.numGenerations (s.tts.bind (·.numGenerations)) (g.tts.bind (·.numGenerations)) 1

/-- The `outputDir` cascade of `resolveOpts`; built-in default "./tts-audio". -/
def resOutputDir (g s : ConfigData) (o : SynthesisOpts) : Prioritized String :=
  osgd o.outputDir (s.tts.bind (·.outputDir)) (g.tts.bind (·.outputDir)) "./tts-audio"

/-- The `prefix` cascade of `resolveOpts`; built-in default "tts-". -/
def resPfx (g s : ConfigData) (o : SynthesisOpts) : Prioritized String :=
  osgd o.pfx (s.tts.bind (·.pfx)) (g.tts.bind (·.pfx)) "tts-"

/-- The `play` cascade of `resolveOpts`; built-in default `'all'`. -/
def resPlay (g s : ConfigData) (o : SynthesisOpts) : Prioritized PlayMode :=
  osgd o.play (s.tts.bind (·.play)) (g.tts.bind (·.play)) .all

/-- The `format` cascade of `resolveOpts`; built-in default `'wav'`. -/
def resFormat (g s : ConfigData) (o : SynthesisOpts) : Prioritized AudioFormat :=
  osgd o.format (s.tts.bind (·.format)) (g.tts.bind (·.format)) .wav

/-- The `last` cascade of `resolveOpts`; built-in default `false`. -/
def resLast (g s : ConfigData) (o : SynthesisOpts) : Prioritized Bool :=
  osgd o.last (s.tts.bind (·.last)) (g.tts.bind (·.last)) false

/-- The `lastIndex` cascade of `resolveOpts`; built-in default `null`. -/
def resLastIndex (g s : ConfigData) (o : SynthesisOpts) : Prioritized (Option Int) :=
  osgdN o.lastIndex (s.tts.bind (·.lastIndex)) (g.tts.bind (·.lastIndex))

/-- The `playCommand` cascade of `resolveOpts`; built-in default `undefined`. -/
def resPlayCommand (g s : ConfigData) (o : SynthesisOpts) : Prioritized (Option String) :=
  osgdN o.playCommand (s.tts.bind (·.playCommand)) (g.tts.bind (·.playCommand))

/-- The `presetVoice` cascade of `resolveOpts`; built-in default `false`. -/
def resPresetVoice (g s : ConfigData) (o : SynthesisOpts) : Prioritized Bool :=
  osgd o.presetVoice (s.tts.bind (·.presetVoice)) (g.tts.bind (·.presetVoice)) false

/-- The `speed` cascade of `resolveOpts`; built-in default `null`. -/
def resSpeed (g s : ConfigData) (o : SynthesisOpts) : Prioritized (Option Rat) :=
  osgdN o.speed (s.tts.bind (·.speed)) (g.tts.bind (·.speed))

/-- The `trailingSilence` cascade of `resolveOpts`; built-in default `null`. -/
def resTrailingSilence (g s : ConfigData) (o : SynthesisOpts) : Prioritized (Option Rat) :=
  osgdN o.trailingSilence (s.tts.bind (·.trailingSilence)) (g.tts.bind (·.trailingSilence))

/-- The `streaming` cascade of `resolveOpts`; built-in default `true`. -/
def resStreaming (g s : ConfigData) (o : SynthesisOpts) : Prioritized Bool :=
  osgd o.streaming (s.tts.bind (·.streaming)) (g.tts.bind (·.streaming)) true

/-- The `instantMode` cascade of `resolveOpts`; built-in default `false`. -/
def resInstantMode (g s : ConfigData) (o : SynthesisOpts) : Prioritized Bool :=
  osgd o.instantMode (s.tts.bind (·.instantMode)) (g.tts.bind (·.instantMode)) false

/-- The pure part of `Tts.resolveOpts`: the per-field cascades, plus the
voiceName/voiceId cross-override. In the source the guard is
`if (voiceName_ && voiceId_)`, which is always true because `osgd` always
returns an object, so only the priority comparison decides which of the two
fields is dropped to null. -/
def resolveOptsCore (globalConfig session : ConfigData) (opts : SynthesisOpts) : ResolvedOpts :=
  { text := opts.text
    provider := opts.provider
    description := (resDescription globalConfig session opts).item
    contextGenerationId := (odN opts.contextGenerationId).item
    voiceName :=
      if (resVoiceName globalConfig session opts).priority >
          (resVoiceId globalConfig session opts).priority then
        (resVoiceName globalConfig session opts).item
      else none
    voiceId :=
      if (resVoiceName globalConfig session opts).priority >
          (resVoiceId globalConfig session opts).priority then
        none
      else (resVoiceId globalConfig session opts).item
    numGenerations := (resNumGenerations globalConfig session opts).item
    outputFilePath := (od opts.outputFilePath "").item
    outputDir := (resOutputDir globalConfig session opts).item
    pfx := (resPfx globalConfig session opts).item
    play := (resPlay globalConfig session opts).item
    format := (resFormat globalConfig session opts).item
    last := (resLast globalConfig session opts).item
    lastIndex := (resLastIndex globalConfig session opts).item
    playCommand := (resPlayCommand globalConfig session opts).item
    presetVoice := (resPresetVoice globalConfig session opts).item
    speed := (resSpeed globalConfig session opts).item
    trailingSilence := (resTrailingSilence globalConfig session opts).item
    streaming := (resStreaming globalConfig session opts).item
    instantMode := (resInstantMode globalConfig session opts).item }

/-- `Tts.resolveOpts`: the mutual-exclusion checks on the raw CLI options (and
only those), then the cascade. The `_env` parameter is unused, as in the
source. -/
def resolveOpts (_env : List (String × String)) (globalConfig session : ConfigData)
    (opts : SynthesisOpts) : Except TtsError ResolvedOpts :=
  if truthyStr opts.voiceName && truthyStr opts.voiceId then
    .error (.mutuallyExclusive "voiceName" "voiceId")
  else if truthyStr opts.outputFilePath && truthyNat opts.numGenerations then
    .error (.mutuallyExclusive "outputFilePath" "numGenerations")
  else if truthyBool opts.last && truthyStr opts.contextGenerationId then
    .error (.mutuallyExclusive "last" "contextGenerationId")
  else
    .ok (resolveOptsCore globalConfig session opts)

/-- Specification-side cascade (stated from the wording of the spec, to be
compared with the code): the value of the first layer that is present, CLI
first, then session, then global; `none` if all three are absent, in which
case the built-in default applies. -/
def specCascade {α : Type} (cli sess glob : Option α) : Option α :=
  match cli with
  | some v => some v
  | none =>
    match sess with
    | some v => some v
    | none => glob

/-- Specification-side source priority of a cascade: 3 if the CLI layer is
present, else 2 if the session layer is present, else 1 if the global layer
is present, else 0 (built-in default). -/
def specPriority {α : Type} (cli sess glob : Option α) : Nat :=
  match cli with
  | some _ => 3
  | none =>
    match sess with
    | some _ => 2
    | none =>
      match glob with
      | some _ => 1
      | none => 0

/-- `GenerationHistory` (`src/history.ts`): the persisted record of the most
recent synthesis. -/
structure GenerationHistory where
  ids : List String
  timestamp : Nat
deriving Repr, DecidableEq

/-- The `context` object of a synthesis request, `{ generationId: ... }`. The
`generationId` is an `Option` because the source can store the result of an
out-of-range JavaScript array access (`undefined`) in it. -/
structure TtsContext where
  generationId : Option String
deriving Repr, DecidableEq

/-- JavaScript array indexing `xs[i]` for an arbitrary integer index: any
out-of-range access (including a negative index) yields `undefined`. -/
def jsIndex (xs : List String) (i : Int) : Option String :=
  if i < 0 then none else xs.get? i.toNat

/-- `Tts.maybeAddContext`: resolves the explicit `contextGenerationId` or the
`last`/`lastIndex` continuation request into the context of the request.
Returns `none` when no context is to be attached. The history store read is
passed in as the `history` argument. -/
def maybeAddContext (contextGenerationId : Option String) (last : Bool)
    (lastIndex : Option Int) (history : Option GenerationHistory) :
    Except TtsError (Option TtsContext) :=
  if truthyStr contextGenerationId then
    .ok (some { generationId := contextGenerationId })
  else if !last then
    .ok none
  else
    match history with
    | none => .error .noPreviousGeneration
    | some lastSynthesis =>
      let nLastGenerations := lastSynthesis.ids.length
      if nLastGenerations > 1 && lastIndex.isNone then
        .error (.lastIndexRange nLastGenerations)
      else if lastIndex.any fun i => i > (nLastGenerations : Int) then
        .error (.lastIndexRange nLastGenerations)
      else
        .ok (some { generationId := jsIndex lastSynthesis.ids ((lastIndex.getD 1) - 1) })

/-- A voice reference as built by `calculateUtterance`: `{name}`, `{id}`,
`{name, provider}` or `{id, provider}`. -/
structure VoiceRef where
  name : Option String := none
  id : Option String := none
  provider : Option Provider := none
deriving Repr, DecidableEq

/-- `Hume.tts.PostedUtterance` as populated by `calculateUtterance`. -/
structure Utterance where
  text : String
  voice : Option VoiceRef := none
  description : Option String := none
  speed : Option Rat := none
  trailingSilence : Option Rat := none
deriving Repr, DecidableEq

/-- `calculateUtterance` (`src/tts.ts`): builds the utterance from the
resolved voice fields, text, description, provider flags and prosody numbers.
The provider is attached to the voice reference only when it is `HUME_AI`. -/
def calculateUtterance (voiceName voiceId : Option String) (text : String)
    (description : Option String) (presetVoice : Bool) (provider0 : Option Provider)
    (speed trailingSilence : Option Rat) : Utterance :=
  let provider := if provider0.isNone && presetVoice then some Provider.HUME_AI else provider0
  let voice : Option VoiceRef :=
    if truthyStr voiceName then
      some (if provider = some Provider.HUME_AI then
              { name := voiceName, provider := some Provider.HUME_AI }
            else { name := voiceName })
    else if truthyStr voiceId then
      some (if provider = some Provider.HUME_AI then
              { id := voiceId, provider := some Provider.HUME_AI }
            else { id := voiceId })
    else none
  { text := text
    voice := voice
    description := if truthyStr description then description else none
    speed := speed
    trailingSilence := trailingSilence }

/-- `SynthesisOutputOpts` (`src/tts.ts`): either one explicit output file
path, or a directory plus filename components. -/
inductive SynthesisOutputOpts
  | path (p : String)
  | dir (numGenerations : Nat) (d : String) (pfx : String) (format : AudioFormat)
deriving Repr, DecidableEq

/-- The `numGenerations` carried by the output plan: forced to 1 for an
explicit output file path. -/
def SynthesisOutputOpts.numGenerations : SynthesisOutputOpts → Nat
  | .path _ => 1
  | .dir n _ _ _ => n

/-- `calculateOutputOpts` (`src/tts.ts`). -/
def calculateOutputOpts (numGenerations : Nat) (outputFilePath : String)
    (outputDir : String) (pfx : String) (format : AudioFormat) :
    Except TtsError SynthesisOutputOpts :=
  if numGenerations > 1 && outputFilePath != "" then
    .error .numGenerationsWithOutputFilePath
  else if outputFilePath != "" then
    .ok (.path outputFilePath)
  else if outputDir = "" then
    .error .outputDirNotSet
  else if pfx = "" then
    .error .prefixNotSet
  else
    .ok (.dir numGenerations outputDir pfx format)

/-- `Hume.tts.PostedTts` as built by `synthesize` (the request payload). -/
structure PostedTts where
  utterances : List Utterance
  numGenerations : Nat
  format : AudioFormat
  context : Option TtsContext := none
  instantMode : Bool := false
deriving Repr, DecidableEq

/-- Everything `Tts.synthesize` has decided at the moment it hands over to a
synthesis driver: the request payload, the resolved options and the output
plan. -/
structure SynthPlan where
  tts : PostedTts
  resolved : ResolvedOpts
  outputOpts : SynthesisOutputOpts
deriving Repr, DecidableEq

/-- `Tts.synthesize` up to (but not including) the remote call: cascade
resolution, output-plan calculation, utterance construction, continuation
context, instant-mode validation and the API-key check, in source order. Every
`.error` of this function is raised before any network interaction. The
stdin read for the text sentinel `-` is modelled by the `stdinInput`
argument, the history store read by `history`, and the API-key presence by
`apiKeyAvailable`. The nested instant-mode checks of the source are flattened
into an if-chain with conjoined conditions, preserving evaluation order. -/
def synthesize (env : List (String × String)) (globalConfig session : ConfigData)
    (history : Option GenerationHistory) (stdinInput : String) (apiKeyAvailable : Bool)
    (rawOpts : SynthesisOpts) : Except TtsError SynthPlan :=
  match resolveOpts env globalConfig session rawOpts with
  | .error e => .error e
  | .ok opts =>
    match calculateOutputOpts opts.numGenerations opts.outputFilePath opts.outputDir
        opts.pfx opts.format with
    | .error e => .error e
    | .ok outputOpts =>
      let text := if opts.text = "-" then stdinInput.trim else opts.text
      let utterance := calculateUtterance opts.voiceName opts.voiceId text
        opts.description opts.presetVoice opts.provider opts.speed opts.trailingSilence
      match maybeAddContext opts.contextGenerationId opts.last opts.lastIndex history with
      | .error e => .error e
      | .ok context =>
        if opts.instantMode && !opts.streaming then
          .error .instantModeRequiresStreaming
        else if opts.instantMode && outputOpts.numGenerations != 1 then
          .error .instantModeRequiresSingleGeneration
        else if opts.instantMode && utterance.voice.isNone && context.isNone then
          .error .instantModeRequiresVoice
        else if !apiKeyAvailable then
          .error .apiKeyNotSet
        else
          .ok { tts := { utterances := [utterance]
                         numGenerations := outputOpts.numGenerations
                         format := opts.format
                         context := context
                         instantMode := opts.instantMode }
                resolved := opts
                outputOpts := outputOpts }

/-- One chunk of the incremental streaming response
(`hume.tts.synthesizeJsonStreaming`): a generation id and a base64 audio
payload (possibly empty). -/
structure SnippetChunk where
  generationId : String
  audio : String
deriving Repr, DecidableEq

/-- A decoded audio buffer (the result of `Buffer.from(audio, 'base64')`),
modelled as a byte list. -/
abbrev AudioBuffer := List Nat

/-- A sample stand-in for the external base64 decoder, used to evaluate the
streaming driver on concrete inputs. -/
def sampleDecode (s : String) : AudioBuffer :=
  s.data.map Char.toNat

/-- The state of the streaming consumption loop in `synthesizeStreaming`:
the first generation id observed in the stream, the per-generation ordered
chunk accumulator (a JavaScript `Map`, i.e. an insertion-ordered association
list), and the sequence of buffers handed to `writeAudio` so far. -/
structure StreamState where
  firstGenerationId : Option String := none
  generationAudio : List (String × List AudioBuffer) := []
  played : List AudioBuffer := []
deriving Repr, DecidableEq

/-- Appending a chunk to a generation entry of the accumulator `Map`,
preserving insertion order: a new key goes to the end, an existing key gets
the buffer appended to its list. -/
def mapAppend (m : List (String × List AudioBuffer)) (k : String) (v : AudioBuffer) :
    List (String × List AudioBuffer) :=
  match m with
  | [] => [(k, [v])]
  | (q, vs) :: rest =>
    if q = k then (q, vs ++ [v]) :: rest
    else (q, vs) :: mapAppend rest k v

/-- Lookup in the accumulator `Map`. -/
def alookup (m : List (String × List AudioBuffer)) (k : String) : Option (List AudioBuffer) :=
  match m with
  | [] => none
  | (q, vs) :: rest => if q = k then some vs else alookup rest k

/-- One iteration of the `for await (const chunk of ...)` loop of
`synthesizeStreaming`: record the first generation id, skip empty audio,
accumulate the decoded buffer, and pipe it to the player sink unless play
mode is `'first'` and the chunk belongs to a later generation. The source
guard is `if (!firstGenerationId)`, a JavaScript truthiness test: the slot
is re-assigned while it is null or holds the empty string, so an
empty-string generation id never locks it. -/
def processChunk (play : PlayMode) (decode : String → AudioBuffer)
    (st : StreamState) (chunk : SnippetChunk) : StreamState :=
  let st :=
    if !truthyStr st.firstGenerationId then
      { st with firstGenerationId := some chunk.generationId }
    else st
  if chunk.audio = "" then st
  else
    let audioBuffer := decode chunk.audio
    let st := { st with
      generationAudio := mapAppend st.generationAudio chunk.generationId audioBuffer }
    if play = .first ∧ some chunk.generationId ≠ st.firstGenerationId then st
    else { st with played := st.played ++ [audioBuffer] }

/-- The whole consumption loop: fold `processChunk` over the finite chunk
sequence of one streaming response, starting from the empty state. -/
def runStream (play : PlayMode) (decode : String → AudioBuffer)
    (chunks : List SnippetChunk) : StreamState :=
  chunks.foldl (processChunk play decode) {}

/-- `path.join(dir, file)` for the simple one-level case used here. -/
def joinPath (d f : String) : String := d ++ "/" ++ f

/-- File extension of an audio format. -/
def AudioFormat.ext : AudioFormat → String
  | .wav => "wav"
  | .mp3 => "mp3"
  | .pcm => "pcm"

/-- The output path of one generation after the stream closes: the explicit
path, or `{dir}/{prefix}{generationId}.{format}`. -/
def generationPath (outputOpts : SynthesisOutputOpts) (generationId : String) : String :=
  match outputOpts with
  | .path p => p
  | .dir _ d pfx fmt => joinPath d (pfx ++ generationId ++ "." ++ fmt.ext)

/-- One combined output file written after the stream closes. -/
structure WrittenFile where
  generationId : String
  path : String
  data : AudioBuffer
deriving Repr, DecidableEq

/-- The files written by `synthesizeStreaming` after the channel closes: one
per entry of the accumulator, containing the concatenation of that
generation's buffers. -/
def streamWrittenFiles (outputOpts : SynthesisOutputOpts) (st : StreamState) :
    List WrittenFile :=
  st.generationAudio.map fun e =>
    { generationId := e.1
      path := generationPath outputOpts e.1
      data := e.2.flatten }

/-- The history record saved by `synthesizeStreaming` after the channel
closes: the keys of the accumulator `Map` and the current time. -/
def streamSavedHistory (now : Nat) (st : StreamState) : GenerationHistory :=
  { ids := st.generationAudio.map Prod.fst, timestamp := now }

/-- The `--last` resolution of `Voices.save` (`src/voices.ts`): unlike the
TTS continuation resolver, it rejects an explicit `lastIndex` smaller than 1
as well as one larger than the history length. The final falsy check models
`if (!generationId) throw ...`. -/
def voiceSaveGenerationId (generationId : Option String) (last : Bool)
    (lastIndex : Option Int) (history : Option GenerationHistory) :
    Except TtsError String :=
  if last then
    match history with
    | none => .error .noPreviousGenerationToSave
    | some lastGeneration =>
      let n := lastGeneration.ids.length
      if n > 1 && lastIndex.isNone then
        .error (.saveLastIndexRange n)
      else if lastIndex.any fun i => i < 1 || i > (n : Int) then
        .error (.saveLastIndexRange n)
      else
        match jsIndex lastGeneration.ids ((lastIndex.getD 1) - 1) with
        | some gid => if gid = "" then .error .mustSpecifyGenerationIdOrLast else .ok gid
        | none => .error .mustSpecifyGenerationIdOrLast
  else
    match generationId with
    | some gid => if gid = "" then .error .mustSpecifyGenerationIdOrLast else .ok gid
    | none => .error .mustSpecifyGenerationIdOrLast

/-- Specification-side description of the buffers a given generation
accumulates: the decoded payloads of its non-empty chunks, in arrival order. -/
def genChunksSpec (decode : String → AudioBuffer) (chunks : List SnippetChunk)
    (gid : String) : List AudioBuffer :=
  chunks.filterMap fun c =>
    if c.generationId = gid ∧ c.audio ≠ "" then some (decode c.audio) else none

/-- Specification-side description of the buffers piped to the player sink
when the first generation observed in the stream is `fid`: every decoded
non-empty payload, except that in play mode `'first'` chunks of other
generations are skipped. -/
def playedSpecFrom (play : PlayMode) (decode : String → AudioBuffer) (fid : String)
    (chunks : List SnippetChunk) : List AudioBuffer :=
  chunks.filterMap fun c =>
    if c.audio = "" then none
    else if play = .first ∧ c.generationId ≠ fid then none
    else some (decode c.audio)

/-- Specification-side description of all buffers piped to the player sink.
The "first generation observed" is the first truthy (non-empty) chunk
generation id: because the source tests the slot with JavaScript truthiness,
an empty-string generation id never locks it, and while the slot is unlocked
every chunk compares equal to its own freshly assigned id and so is piped
whenever its payload is non-empty; once a chunk with a non-empty generation
id arrives, that id is locked and `playedSpecFrom` governs the rest of the
stream. -/
def playedSpec (play : PlayMode) (decode : String → AudioBuffer) :
    List SnippetChunk → List AudioBuffer
  | [] => []
  | c :: cs =>
    if c.generationId = "" then
      (if c.audio = "" then [] else [decode c.audio]) ++ playedSpec play decode cs
    else
      (if c.audio = "" then [] else [decode c.audio]) ++
        playedSpecFrom play decode c.generationId cs

/-- Appending the list value `l` of a cascade of chunk contributions to an
optional existing accumulator entry: no contribution leaves the entry as it
was, otherwise the entry exists and ends with the contributions. -/
def optAppend (o : Option (List AudioBuffer)) (l : List AudioBuffer) :
    Option (List AudioBuffer) :=
  if l = [] then o else some (o.getD [] ++ l)

/-- Specification-side first-occurrence key collection: fold a list of keys,
keeping only the first occurrence of each, appended in arrival order. -/
def addKey (ks : List String) (k : String) : List String :=
  if k ∈ ks then ks else ks ++ [k]

/-- First occurrences of keys in `l`, appended after the seed list `ks`. -/
def firstSeen (ks : List String) (l : List String) : List String :=
  l.foldl addKey ks

/-- The generation ids of chunks carrying a non-empty payload, in arrival
order (with repetitions). -/
def nonEmptyGids (chunks : List SnippetChunk) : List String :=
  chunks.filterMap fun c => if c.audio = "" then none else some c.generationId

/-- Specification-side voiceName cascade value (CLI else session else global). -/
def cascVoiceName (g s : ConfigData) (o : SynthesisOpts) : Option String :=
  specCascade o.voiceName (s.tts.bind (·.voiceName)) (g.tts.bind (·.voiceName))

/-- Specification-side voiceId cascade value (CLI else session else global). -/
def cascVoiceId (g s : ConfigData) (o : SynthesisOpts) : Option String :=
  specCascade o.voiceId (s.tts.bind (·.voiceId)) (g.tts.bind (·.voiceId))

/-- Specification-side priority of the resolved voiceName source. -/
def prioVoiceName (g s : ConfigData) (o : SynthesisOpts) : Nat :=
  specPriority o.voiceName (s.tts.bind (·.voiceName)) (g.tts.bind (·.voiceName))

/-- Specification-side priority of the resolved voiceId source. -/
def prioVoiceId (g s : ConfigData) (o : SynthesisOpts) : Nat :=
  specPriority o.voiceId (s.tts.bind (·.voiceId)) (g.tts.bind (·.voiceId))

/-- Specification-side effective provider: the explicit provider flag when
present, else HUME_AI when the legacy preset-voice flag is set, else none. -/
def effectiveProviderSpec (provider0 : Option Provider) (presetVoice : Bool) : Option Provider :=
  match provider0 with
  | some p => some p
  | none => if presetVoice then some Provider.HUME_AI else none

theorem osgd_eq_spec {α : Type} (cli sess glob : Option α) (dflt : α) :
    osgd cli sess glob dflt =
      { priority := specPriority cli sess glob
        item := (specCascade cli sess glob).getD dflt } := by
  cases cli <;> cases sess <;> cases glob <;> rfl

theorem osgdN_eq_spec {α : Type} (cli sess glob : Option α) :
    osgdN cli sess glob =
      { priority := specPriority cli sess glob
        item := specCascade cli sess glob } := by
  cases cli <;> cases sess <;> cases glob <;> rfl

theorem specCascade_none_iff {α : Type} (cli sess glob : Option α) :
    specCascade cli sess glob = none ↔ specPriority cli sess glob = 0 := by
  cases cli <;> cases sess <;> cases glob <;> simp [specCascade, specPriority]

theorem resolveOpts_ok_eq (env : List (String × String)) (g s : ConfigData)
    (o : SynthesisOpts) (r : ResolvedOpts) (hr : resolveOpts env g s o = .ok r) :
    r = resolveOptsCore g s o := by
  unfold resolveOpts at hr
  split_ifs at hr <;> simp_all

/-- C1 (amended). For each of the cascading fields description,
numGenerations, outputDir, prefix, play, format, last, lastIndex,
playCommand, presetVoice, speed, trailingSilence, streaming and instantMode,
the resolved value equals the CLI flag value when present, otherwise the
session-config value when present, otherwise the global-config value when
present, otherwise the built-in default (null/undefined counting as absent).
voiceName and voiceId follow the same cascade whenever the other of the two
is absent at every layer; when both cascade to non-null values the
cross-field override of C2 applies instead (which is what refutes the
original claim). -/
theorem claim1_cascade (env : List (String × String)) (g s : ConfigData)
    (o : SynthesisOpts) (r : ResolvedOpts) (hr : resolveOpts env g s o = .ok r) :
    r.description
        = specCascade o.description (s.tts.bind (·.description)) (g.tts.bind (·.description)) ∧
    r.numGenerations
        = (specCascade o.numGenerations (s.tts.bind (·.numGenerations))
            (g.tts.bind (·.numGenerations))).getD 1 ∧
    r.outputDir
        = (specCascade o.outputDir (s.tts.bind (·.outputDir))
            (g.tts.bind (·.outputDir))).getD "./tts-audio" ∧
    r.pfx = (specCascade o.pfx (s.tts.bind (·.pfx)) (g.tts.bind (·.pfx))).getD "tts-" ∧
    r.play = (specCascade o.play (s.tts.bind (·.play)) (g.tts.bind (·.play))).getD .all ∧
    r.format
        = (specCascade o.format (s.tts.bind (·.format)) (g.tts.bind (·.format))).getD .wav ∧
    r.last = (specCascade o.last (s.tts.bind (·.last)) (g.tts.bind (·.last))).getD false ∧
    r.lastIndex
        = specCascade o.lastIndex (s.tts.bind (·.lastIndex)) (g.tts.bind (·.lastIndex)) ∧
    r.playCommand
        = specCascade o.playCommand (s.tts.bind (·.playCommand)) (g.tts.bind (·.playCommand)) ∧
    r.presetVoice
        = (specCascade o.presetVoice (s.tts.bind (·.presetVoice))
            (g.tts.bind (·.presetVoice))).getD false ∧
    r.speed = specCascade o.speed (s.tts.bind (·.speed)) (g.tts.bind (·.speed)) ∧
    r.trailingSilence
        = specCascade o.trailingSilence (s.tts.bind (·.trailingSilence))
            (g.tts.bind (·.trailingSilence)) ∧
    r.streaming
        = (specCascade o.streaming (s.tts.bind (·.streaming))
            (g.tts.bind (·.streaming))).getD true ∧
    r.instantMode
        = (specCascade o.instantMode (s.tts.bind (·.instantMode))
            (g.tts.bind (·.instantMode))).getD false ∧
    ((cascVoiceName g s o = none ∨ cascVoiceId g s o = none) →
      r.voiceName = cascVoiceName g s o ∧ r.voiceId = cascVoiceId g s o) := by
  have hc := resolveOpts_ok_eq env g s o r hr
  subst hc
  refine ⟨?_, ?_, ?_, ?_, ?_, ?_, ?_, ?_, ?_, ?_, ?_, ?_, ?_, ?_, ?_⟩
  · simp [resolveOptsCore, resDescription, osgdN_eq_spec]
  · simp [resolveOptsCore, resNumGenerations, osgd_eq_spec]
  · simp [resolveOptsCore, resOutputDir, osgd_eq_spec]
  · simp [resolveOptsCore, resPfx, osgd_eq_spec]
  · simp [resolveOptsCore, resPlay, osgd_eq_spec]
  · simp [resolveOptsCore, resFormat, osgd_eq_spec]
  · simp [resolveOptsCore, resLast, osgd_eq_spec]
  · simp [resolveOptsCore, resLastIndex, osgdN_eq_spec]
  · simp [resolveOptsCore, resPlayCommand, osgdN_eq_spec]
  · simp [resolveOptsCore, resPresetVoice, osgd_eq_spec]
  · simp [resolveOptsCore, resSpeed, osgdN_eq_spec]
  · simp [resolveOptsCore, resTrailingSilence, osgdN_eq_spec]
  · simp [resolveOptsCore, resStreaming, osgd_eq_spec]
  · simp [resolveOptsCore, resInstantMode, osgd_eq_spec]
  · intro hvoice
    simp only [resolveOptsCore, resVoiceName, resVoiceId, osgdN_eq_spec, cascVoiceName,
      cascVoiceId] at *
    rcases hvoice with h | h
    · have hp : specPriority o.voiceName (s.tts.bind (·.voiceName))
          (g.tts.bind (·.voiceName)) = 0 := (specCascade_none_iff _ _ _).mp h
      simp [hp, h]
    · have hp : specPriority o.voiceId (s.tts.bind (·.voiceId))
          (g.tts.bind (·.voiceId)) = 0 := (specCascade_none_iff _ _ _).mp h
      by_cases hN : specPriority o.voiceName (s.tts.bind (·.voiceName))
          (g.tts.bind (·.voiceName)) = 0
      · have hcn := (specCascade_none_iff (o.voiceName) (s.tts.bind (·.voiceName))
          (g.tts.bind (·.voiceName))).mpr hN
        simp [hp, hN, hcn, h]
      · have hpos : 0 < specPriority o.voiceName (s.tts.bind (·.voiceName))
            (g.tts.bind (·.voiceName)) := Nat.pos_of_ne_zero hN
        simp [hp, hpos, h]

/-- C1 (counterexample to the original claim). With the global config setting
voiceName to "alice" and the CLI setting voiceId to "v1", resolution succeeds
and the voiceName cascade value is "alice" (the global layer, since the CLI
and session layers are absent), yet the resolved voiceName is null, not
"alice": the cross-field voiceName/voiceId override breaks the pure per-field
cascade stated by the claim. -/
theorem claim1_counterexample :
    (resolveOpts [] { tts := some { voiceName := some "alice" } } {}
        { text := "hi", voiceId := some "v1" }).map (·.voiceName) = Except.ok none ∧
    cascVoiceName { tts := some { voiceName := some "alice" } } {}
        { text := "hi", voiceId := some "v1" } = some "alice" := by
  constructor
  · rfl
  · rfl

/-- Witness for C1: a concrete four-layer input evaluated through the amended
theorem. -/
theorem claim1_witness :
    (resolveOptsCore {} { tts := some { outputDir := some "confdir" } }
        { text := "hi", play := some PlayMode.off }).play = PlayMode.off ∧
    (resolveOptsCore {} { tts := some { outputDir := some "confdir" } }
        { text := "hi", play := some PlayMode.off }).outputDir = "confdir" ∧
    (resolveOptsCore {} { tts := some { outputDir := some "confdir" } }
        { text := "hi", play := some PlayMode.off }).streaming = true := by
  have h := claim1_cascade [] {} { tts := some { outputDir := some "confdir" } }
    { text := "hi", play := some PlayMode.off } _ rfl
  obtain ⟨h1, h2, h3, h4, h5, h6, h7, h8, h9, h10, h11, h12, h13, h14, h15⟩ := h
  refine ⟨?_, ?_, ?_⟩
  · rw [h5]; rfl
  · rw [h3]; rfl
  · rw [h13]; rfl

/-- C2. If the voiceName and voiceId cascades both resolve to non-null values
from sources of different priority, then exactly the one with the strictly
higher source priority survives resolution and the other is set to null. -/
theorem claim2_voice_priority (env : List (String × String)) (g s : ConfigData)
    (o : SynthesisOpts) (r : ResolvedOpts) (hr : resolveOpts env g s o = .ok r)
    (a b : String)
    (hn : cascVoiceName g s o = some a) (hi : cascVoiceId g s o = some b)
    (hne : prioVoiceName g s o ≠ prioVoiceId g s o) :
    (prioVoiceName g s o > prioVoiceId g s o →
      r.voiceName = some a ∧ r.voiceId = none) ∧
    (prioVoiceId g s o > prioVoiceName g s o →
      r.voiceName = none ∧ r.voiceId = some b) := by
  have hc := resolveOpts_ok_eq env g s o r hr
  subst hc
  simp only [cascVoiceName, cascVoiceId, prioVoiceName, prioVoiceId] at hn hi hne ⊢
  constructor
  · intro hgt
    constructor
    · simp [resolveOptsCore, resVoiceName, resVoiceId, osgdN_eq_spec, hgt, hn]
    · simp [resolveOptsCore, resVoiceName, resVoiceId, osgdN_eq_spec, hgt]
  · intro hgt
    have hngt : ¬ (specPriority o.voiceName (s.tts.bind (·.voiceName))
        (g.tts.bind (·.voiceName)) > specPriority o.voiceId (s.tts.bind (·.voiceId))
        (g.tts.bind (·.voiceId))) := Nat.lt_asymm hgt
    constructor
    · simp [resolveOptsCore, resVoiceName, resVoiceId, osgdN_eq_spec, hngt]
    · simp [resolveOptsCore, resVoiceName, resVoiceId, osgdN_eq_spec, hngt, hi]

/-- Witness for C2: global config sets voiceName "alice" (priority 1), the
CLI sets voiceId "v1" (priority 3); the resolved voiceId survives and
voiceName is null, exactly the example of the claim. -/
theorem claim2_witness :
    (resolveOptsCore { tts := some { voiceName := some "alice" } } {}
        { text := "hi", voiceId := some "v1" }).voiceName = none ∧
    (resolveOptsCore { tts := some { voiceName := some "alice" } } {}
        { text := "hi", voiceId := some "v1" }).voiceId = some "v1" := by
  have h := (claim2_voice_priority [] { tts := some { voiceName := some "alice" } } {}
    { text := "hi", voiceId := some "v1" } _ rfl "alice" "v1" rfl rfl
    (by decide)).2 (by decide)
  exact h

/-- C9. When the voiceName and voiceId cascades both resolve non-null from
sources of the same priority (only possible when one config layer sets both),
the resolver deterministically keeps voiceId and drops voiceName to null;
moreover, for every input that resolves at all, at least one of the resolved
voiceName and voiceId is null. -/
theorem claim9_voice_tiebreak (env : List (String × String)) (g s : ConfigData)
    (o : SynthesisOpts) (r : ResolvedOpts) (hr : resolveOpts env g s o = .ok r) :
    ((∃ a, cascVoiceName g s o = some a) → (∃ b, cascVoiceId g s o = some b) →
      prioVoiceName g s o = prioVoiceId g s o →
      r.voiceName = none ∧ r.voiceId = cascVoiceId g s o) ∧
    (r.voiceName = none ∨ r.voiceId = none) := by
  have hc := resolveOpts_ok_eq env g s o r hr
  subst hc
  constructor
  · intro _ _ heq
    simp only [prioVoiceName, prioVoiceId] at heq
    constructor
    · simp [resolveOptsCore, resVoiceName, resVoiceId, osgdN_eq_spec, heq]
    · simp [resolveOptsCore, resVoiceName, resVoiceId, osgdN_eq_spec, heq, cascVoiceId]
  · by_cases hgt : (resVoiceName g s o).priority > (resVoiceId g s o).priority
    · right
      simp [resolveOptsCore, hgt]
    · left
      simp [resolveOptsCore, hgt]

/-- Witness for C9: the session config sets both voiceName and voiceId (equal
priority 2); voiceId survives, voiceName becomes null. -/
theorem claim9_witness :
    (resolveOptsCore {} { tts := some { voiceName := some "a", voiceId := some "b" } }
        { text := "x" }).voiceName = none ∧
    (resolveOptsCore {} { tts := some { voiceName := some "a", voiceId := some "b" } }
        { text := "x" }).voiceId = some "b" := by
  have h := (claim9_voice_tiebreak []
    {} { tts := some { voiceName := some "a", voiceId := some "b" } }
    { text := "x" } _ rfl).1 ⟨"a", rfl⟩ ⟨"b", rfl⟩ (by decide)
  exact ⟨h.1, h.2⟩

/-- C6. With continuation requested (last set, no truthy explicit
contextGenerationId): no history record fails with the
no-previous-generation error; a history of N ids fails with the range error
(naming N, hence the range 1..N) when N exceeds 1 and no lastIndex was given,
and when a given lastIndex exceeds N; otherwise the context generation id
resolves to `history.ids[lastIndex - 1]` (JavaScript indexing), lastIndex
defaulting to 1. -/
theorem claim6_continuation (ctxId : Option String) (lastIndex : Option Int)
    (history : Option GenerationHistory) (hctx : truthyStr ctxId = false) :
    (history = none →
      maybeAddContext ctxId true lastIndex history = .error .noPreviousGeneration) ∧
    (∀ h, history = some h →
      (h.ids.length > 1 → lastIndex = none →
        maybeAddContext ctxId true lastIndex history
          = .error (.lastIndexRange h.ids.length)) ∧
      (∀ i, lastIndex = some i → i > (h.ids.length : Int) →
        maybeAddContext ctxId true lastIndex history
          = .error (.lastIndexRange h.ids.length)) ∧
      (¬(h.ids.length > 1 ∧ lastIndex = none) →
        (∀ i, lastIndex = some i → i ≤ (h.ids.length : Int)) →
        maybeAddContext ctxId true lastIndex history
          = .ok (some { generationId := jsIndex h.ids ((lastIndex.getD 1) - 1) }))) := by
  constructor
  · intro hnone
    subst hnone
    simp [maybeAddContext, hctx]
  · intro h hh
    subst hh
    refine ⟨?_, ?_, ?_⟩
    · intro hlen hli
      subst hli
      simp [maybeAddContext, hctx, hlen]
    · intro i hli hgt
      subst hli
      simp [maybeAddContext, hctx, hgt]
    · intro hn1 hle
      cases hli : lastIndex with
      | none =>
        subst hli
        have hlen : ¬ h.ids.length > 1 := fun hgt => hn1 ⟨hgt, rfl⟩
        simp [maybeAddContext, hctx, hlen]
      | some i =>
        subst hli
        have hile : i ≤ (h.ids.length : Int) := hle i rfl
        have : ¬ i > (h.ids.length : Int) := not_lt.mpr hile
        simp [maybeAddContext, hctx, this]

/-- Witness for C6: one previous generation, `--last` with no index resolves
the context to that generation id. -/
theorem claim6_witness :
    maybeAddContext none true none (some { ids := ["gen_1"], timestamp := 0 })
      = Except.ok (some { generationId := some "gen_1" }) := by
  have h := ((claim6_continuation none none
      (some { ids := ["gen_1"], timestamp := 0 }) rfl).2
      { ids := ["gen_1"], timestamp := 0 } rfl).2.2
    (by simp) (by intro i hi; cases hi)
  rw [h]
  rfl

/-- C10. The TTS continuation resolver checks a supplied lastIndex only
against the upper bound: with last requested and a non-empty history of N
ids, lastIndex greater than N raises the range error, but a zero or negative
lastIndex passes validation and produces an out-of-bounds JavaScript lookup
`history.ids[lastIndex - 1]`, i.e. no valid context generation id; the
voice-saving resolver instead rejects any lastIndex smaller than 1. -/
theorem claim10_no_lower_bound (h : GenerationHistory) (i : Int) (hne : h.ids ≠ []) :
    (i > (h.ids.length : Int) →
      maybeAddContext none true (some i) (some h)
        = .error (.lastIndexRange h.ids.length)) ∧
    (i ≤ 0 →
      maybeAddContext none true (some i) (some h)
        = .ok (some { generationId := none })) ∧
    (i < 1 →
      voiceSaveGenerationId none true (some i) (some h)
        = .error (.saveLastIndexRange h.ids.length)) := by
  have hlen : 0 < h.ids.length := List.length_pos.mpr hne
  refine ⟨?_, ?_, ?_⟩
  · intro hgt
    simp [maybeAddContext, truthyStr, hgt]
  · intro hle
    have hngt : ¬ i > (h.ids.length : Int) := by omega
    have hneg : i - 1 < 0 := by omega
    simp [maybeAddContext, truthyStr, hngt, jsIndex, hneg]
  · intro hlt
    have : (i < 1 || i > (h.ids.length : Int)) = true := by
      simp only [Bool.or_eq_true, decide_eq_true_eq]
      left
      exact hlt
    simp [voiceSaveGenerationId, this]

/-- Witness for C10: history of one id, lastIndex 0: continuation passes
validation and yields an undefined generation id, voice saving rejects it. -/
theorem claim10_witness :
    maybeAddContext none true (some 0) (some { ids := ["gen_1"], timestamp := 0 })
      = Except.ok (some { generationId := none }) ∧
    voiceSaveGenerationId none true (some 0) (some { ids := ["gen_1"], timestamp := 0 })
      = Except.error (.saveLastIndexRange 1) := by
  have h := claim10_no_lower_bound { ids := ["gen_1"], timestamp := 0 } 0 (by simp)
  exact ⟨h.2.1 (by omega), h.2.2 (by omega)⟩

theorem ite_error_ok_inv {ε α : Type} {c : Prop} [Decidable c] {e : ε}
    {x : Except ε α} {p : α}
    (h : (if c then Except.error e else x) = .ok p) : ¬c ∧ x = .ok p := by
  by_cases hc : c
  · rw [if_pos hc] at h; cases h
  · rw [if_neg hc] at h; exact ⟨hc, h⟩

/-- C5. With resolved instantMode true, `synthesize` can only succeed when
streaming is enabled, the effective numGenerations of the output plan is 1,
and the single utterance carries a voice reference or the request carries a
context reference; and when the pipeline reaches the instant-mode validation
(output-plan calculation and context resolution succeeded), each violated
precondition produces the error naming it, checked in source order. Every
error of `synthesize` is raised before any remote call, which the model makes
structural. -/
theorem claim5_instant_mode (env : List (String × String)) (g s : ConfigData)
    (history : Option GenerationHistory) (stdin : String) (key : Bool)
    (o : SynthesisOpts) (opts : ResolvedOpts)
    (hres : resolveOpts env g s o = .ok opts) (hi : opts.instantMode = true) :
    (∀ plan, synthesize env g s history stdin key o = .ok plan →
      opts.streaming = true ∧ plan.outputOpts.numGenerations = 1 ∧
      ∃ u, plan.tts.utterances = [u] ∧ (u.voice ≠ none ∨ plan.tts.context ≠ none)) ∧
    (∀ outputOpts context,
      calculateOutputOpts opts.numGenerations opts.outputFilePath opts.outputDir
        opts.pfx opts.format = .ok outputOpts →
      maybeAddContext opts.contextGenerationId opts.last opts.lastIndex history
        = .ok context →
      ((opts.streaming = false →
        synthesize env g s history stdin key o = .error .instantModeRequiresStreaming) ∧
      (opts.streaming = true → outputOpts.numGenerations ≠ 1 →
        synthesize env g s history stdin key o
          = .error .instantModeRequiresSingleGeneration) ∧
      (opts.streaming = true → outputOpts.numGenerations = 1 →
        (calculateUtterance opts.voiceName opts.voiceId
          (if opts.text = "-" then stdin.trim else opts.text) opts.description
          opts.presetVoice opts.provider opts.speed opts.trailingSilence).voice = none →
        context = none →
        synthesize env g s history stdin key o = .error .instantModeRequiresVoice))) := by
  constructor
  · intro plan hok
    simp only [synthesize, hres] at hok
    cases hco : calculateOutputOpts opts.numGenerations opts.outputFilePath opts.outputDir
        opts.pfx opts.format with
    | error e => rw [hco] at hok; cases hok
    | ok outputOpts =>
      rw [hco] at hok
      cases hma : maybeAddContext opts.contextGenerationId opts.last opts.lastIndex
          history with
      | error e => rw [hma] at hok; cases hok
      | ok context =>
        rw [hma] at hok
        simp only [hi, Bool.true_and] at hok
        obtain ⟨hc1, hok⟩ := ite_error_ok_inv hok
        obtain ⟨hc2, hok⟩ := ite_error_ok_inv hok
        obtain ⟨hc3, hok⟩ := ite_error_ok_inv hok
        obtain ⟨hc4, hok⟩ := ite_error_ok_inv hok
        injection hok with hplan
        subst hplan
        refine ⟨by simpa using hc1, by simpa using hc2, _, rfl, ?_⟩
        simp only [Bool.and_eq_true, not_and, Option.isNone_iff_eq_none] at hc3
        tauto
  · intro outputOpts context hco hma
    refine ⟨?_, ?_, ?_⟩
    · intro hs
      simp [synthesize, hres, hco, hma, hi, hs]
    · intro hs hng
      simp [synthesize, hres, hco, hma, hi, hs, hng]
    · intro hs hng hvoice hctx
      simp [synthesize, hres, hco, hma, hi, hs, hng, hvoice, hctx]

/-- Witness for C5: instantMode resolved true with streaming resolved false
fails with the streaming-required error. -/
theorem claim5_witness :
    synthesize [] {} {} none "" true
      { text := "hi", instantMode := some true, streaming := some false }
      = Except.error .instantModeRequiresStreaming := by
  have h := ((claim5_instant_mode [] {} {} none "" true
    { text := "hi", instantMode := some true, streaming := some false }
    _ rfl rfl).2 (.dir 1 "./tts-audio" "tts-" .wav) none rfl rfl).1 rfl
  exact h

/-- C8 (counterexample to the original claim). With voiceName "alice" and the
explicit provider flag CUSTOM_VOICE, the resolved provider is CUSTOM_VOICE,
yet `calculateUtterance` builds the voice reference without any provider: the
provider is attached only when it is HUME_AI, not for every resolved provider
value as the claim states. -/
theorem claim8_counterexample :
    (calculateUtterance (some "alice") none "hi" none false (some Provider.CUSTOM_VOICE)
        none none).voice
      = some { name := some "alice", id := none, provider := none } := by
  rfl

/-- C8 (amended). A truthy resolved voiceName yields the voice reference
`{name}` and, failing that, a truthy resolved voiceId yields `{id}`; the
effective provider is the explicit provider flag, taking precedence over the
legacy presetVoice flag, which implies HUME_AI; and the provider is attached
to the voice reference exactly when the effective provider is HUME_AI
(CUSTOM_VOICE is never attached). -/
theorem claim8_voice_reference (voiceName voiceId : Option String) (text : String)
    (description : Option String) (presetVoice : Bool) (provider0 : Option Provider)
    (speed trailingSilence : Option Rat) :
    (truthyStr voiceName = true →
      (calculateUtterance voiceName voiceId text description presetVoice provider0
          speed trailingSilence).voice
        = some { name := voiceName, id := none,
                 provider :=
                   if effectiveProviderSpec provider0 presetVoice = some Provider.HUME_AI
                   then some Provider.HUME_AI else none }) ∧
    (truthyStr voiceName = false → truthyStr voiceId = true →
      (calculateUtterance voiceName voiceId text description presetVoice provider0
          speed trailingSilence).voice
        = some { name := none, id := voiceId,
                 provider :=
                   if effectiveProviderSpec provider0 presetVoice = some Provider.HUME_AI
                   then some Provider.HUME_AI else none }) ∧
    (truthyStr voiceName = false → truthyStr voiceId = false →
      (calculateUtterance voiceName voiceId text description presetVoice provider0
          speed trailingSilence).voice = none) := by
  refine ⟨?_, ?_, ?_⟩
  · intro h1
    rcases provider0 with _ | p
    · cases presetVoice <;> simp [calculateUtterance, effectiveProviderSpec, h1]
    · cases p <;> cases presetVoice <;>
        simp [calculateUtterance, effectiveProviderSpec, h1]
  · intro h1 h2
    rcases provider0 with _ | p
    · cases presetVoice <;> simp [calculateUtterance, effectiveProviderSpec, h1, h2]
    · cases p <;> cases presetVoice <;>
        simp [calculateUtterance, effectiveProviderSpec, h1, h2]
  · intro h1 h2
    simp [calculateUtterance, h1, h2]

/-- Witness for C8: voiceName with the legacy presetVoice flag and no explicit
provider gives `{name, provider: HUME_AI}`. -/
theorem claim8_witness :
    (calculateUtterance (some "narrator") none "hi" none true none none none).voice
      = some { name := some "narrator", id := none, provider := some Provider.HUME_AI } := by
  have h := (claim8_voice_reference (some "narrator") none "hi" none true none
    none none).1 rfl
  rw [h]
  rfl

theorem alookup_mapAppend_self (m : List (String × List AudioBuffer)) (k : String)
    (v : AudioBuffer) :
    alookup (mapAppend m k v) k = some ((alookup m k).getD [] ++ [v]) := by
  induction m with
  | nil => simp [mapAppend, alookup]
  | cons e rest ih =>
    obtain ⟨q, vs⟩ := e
    by_cases hq : q = k
    · simp [mapAppend, alookup, hq]
    · simp [mapAppend, alookup, hq, ih]

theorem alookup_mapAppend_ne (m : List (String × List AudioBuffer)) (k q : String)
    (v : AudioBuffer) (h : q ≠ k) :
    alookup (mapAppend m k v) q = alookup m q := by
  have hkq : ¬ k = q := Ne.symm h
  induction m with
  | nil => simp [mapAppend, alookup, hkq]
  | cons e rest ih =>
    obtain ⟨p, vs⟩ := e
    by_cases hp : p = k
    · subst hp
      simp [mapAppend, alookup, hkq]
    · by_cases hq : p = q
      · simp [mapAppend, alookup, hp, hq, h]
      · simp [mapAppend, alookup, hp, hq, ih]

theorem keys_mapAppend (m : List (String × List AudioBuffer)) (k : String)
    (v : AudioBuffer) :
    (mapAppend m k v).map Prod.fst = addKey (m.map Prod.fst) k := by
  induction m with
  | nil => simp [mapAppend, addKey]
  | cons e rest ih =>
    obtain ⟨p, vs⟩ := e
    by_cases hp : p = k
    · simp [mapAppend, addKey, hp]
    · have hkp : ¬ k = p := Ne.symm hp
      by_cases hk : k ∈ rest.map Prod.fst
      · simp [mapAppend, addKey, hp, hk, ih, hkp]
      · simp [mapAppend, addKey, hp, hk, ih, hkp]

theorem alookup_isSome_iff_mem_keys (m : List (String × List AudioBuffer)) (k : String) :
    (alookup m k).isSome = true ↔ k ∈ m.map Prod.fst := by
  induction m with
  | nil => simp [alookup]
  | cons e rest ih =>
    obtain ⟨p, vs⟩ := e
    by_cases hp : p = k
    · simp [alookup, hp]
    · simp [alookup, hp, ih, Ne.symm hp]

theorem alookup_eq_of_mem_nodup (m : List (String × List AudioBuffer)) (k : String)
    (v : List AudioBuffer) (hd : (m.map Prod.fst).Nodup) (hm : (k, v) ∈ m) :
    alookup m k = some v := by
  induction m with
  | nil => cases hm
  | cons e rest ih =>
    obtain ⟨p, vs⟩ := e
    rcases List.mem_cons.mp hm with he | hrest
    · injection he with h1 h2
      subst h1; subst h2
      simp [alookup]
    · have hp : p ≠ k := by
        intro hpk
        subst hpk
        have : p ∈ rest.map Prod.fst := List.mem_map.mpr ⟨(p, v), hrest, rfl⟩
        exact (List.nodup_cons.mp hd).1 this
      have := ih (List.nodup_cons.mp hd).2 hrest
      simp [alookup, hp, this]

theorem optAppend_snoc (o : Option (List AudioBuffer)) (v : AudioBuffer)
    (l : List AudioBuffer) :
    optAppend (some (o.getD [] ++ [v])) l = optAppend o (v :: l) := by
  cases l <;> simp [optAppend]

theorem processChunk_generationAudio (play : PlayMode) (decode : String → AudioBuffer)
    (st : StreamState) (c : SnippetChunk) :
    (processChunk play decode st c).generationAudio =
      if c.audio = "" then st.generationAudio
      else mapAppend st.generationAudio c.generationId (decode c.audio) := by
  by_cases h1 : truthyStr st.firstGenerationId <;> by_cases h2 : c.audio = "" <;>
    simp [processChunk, h1, h2] <;> split <;> rfl

theorem processChunk_first_of_truthy (play : PlayMode) (decode : String → AudioBuffer)
    (st : StreamState) (c : SnippetChunk) (fid : String)
    (h : st.firstGenerationId = some fid) (hf : fid ≠ "") :
    (processChunk play decode st c).firstGenerationId = some fid := by
  have h1 : truthyStr (some fid) = true := by simpa [truthyStr] using hf
  by_cases h2 : c.audio = "" <;> simp [processChunk, h, h1, h2] <;> split <;> simp

theorem processChunk_first_of_falsy (play : PlayMode) (decode : String → AudioBuffer)
    (st : StreamState) (c : SnippetChunk)
    (h : truthyStr st.firstGenerationId = false) :
    (processChunk play decode st c).firstGenerationId = some c.generationId := by
  by_cases h2 : c.audio = "" <;> simp [processChunk, h, h2] <;> split <;> rfl

theorem processChunk_played_of_truthy (play : PlayMode) (decode : String → AudioBuffer)
    (st : StreamState) (c : SnippetChunk) (fid : String)
    (h : st.firstGenerationId = some fid) (hf : fid ≠ "") :
    (processChunk play decode st c).played =
      st.played ++ (if c.audio = "" then []
        else if play = .first ∧ c.generationId ≠ fid then []
        else [decode c.audio]) := by
  have h1 : truthyStr (some fid) = true := by simpa [truthyStr] using hf
  by_cases h2 : c.audio = ""
  · simp [processChunk, h, h1, h2]
  · by_cases h3 : play = .first ∧ c.generationId ≠ fid
    · simp [processChunk, h, h1, h2, h3]
    · simp [processChunk, h, h1, h2, h3]

theorem processChunk_played_of_falsy (play : PlayMode) (decode : String → AudioBuffer)
    (st : StreamState) (c : SnippetChunk)
    (h : truthyStr st.firstGenerationId = false) :
    (processChunk play decode st c).played =
      st.played ++ (if c.audio = "" then [] else [decode c.audio]) := by
  by_cases h2 : c.audio = ""
  · simp [processChunk, h, h2]
  · simp [processChunk, h, h2]

theorem foldl_generationAudio (play : PlayMode) (decode : String → AudioBuffer)
    (chunks : List SnippetChunk) :
    ∀ (st : StreamState) (gid : String),
      alookup ((chunks.foldl (processChunk play decode) st).generationAudio) gid =
        optAppend (alookup st.generationAudio gid) (genChunksSpec decode chunks gid) := by
  induction chunks with
  | nil => intro st gid; simp [genChunksSpec, optAppend]
  | cons c cs ih =>
    intro st gid
    rw [List.foldl_cons, ih, processChunk_generationAudio]
    by_cases h2 : c.audio = ""
    · simp [h2, genChunksSpec, List.filterMap_cons]
    · by_cases h3 : c.generationId = gid
      · subst h3
        rw [if_neg h2, alookup_mapAppend_self, optAppend_snoc]
        simp [genChunksSpec, List.filterMap_cons, h2]
      · rw [if_neg h2, alookup_mapAppend_ne _ _ _ _ (Ne.symm h3)]
        simp [genChunksSpec, List.filterMap_cons, h3, h2]

theorem runStream_generationAudio (play : PlayMode) (decode : String → AudioBuffer)
    (chunks : List SnippetChunk) (gid : String) :
    alookup ((runStream play decode chunks).generationAudio) gid =
      optAppend none (genChunksSpec decode chunks gid) := by
  rw [runStream, foldl_generationAudio]
  rfl

theorem foldl_keys (play : PlayMode) (decode : String → AudioBuffer)
    (chunks : List SnippetChunk) :
    ∀ st : StreamState,
      ((chunks.foldl (processChunk play decode) st).generationAudio).map Prod.fst =
        firstSeen (st.generationAudio.map Prod.fst) (nonEmptyGids chunks) := by
  induction chunks with
  | nil => intro st; simp [firstSeen, nonEmptyGids]
  | cons c cs ih =>
    intro st
    rw [List.foldl_cons, ih, processChunk_generationAudio]
    by_cases h2 : c.audio = ""
    · simp [h2, nonEmptyGids, List.filterMap_cons]
    · rw [if_neg h2, keys_mapAppend]
      simp [nonEmptyGids, List.filterMap_cons, h2, firstSeen]

theorem addKey_nodup (ks : List String) (k : String) (h : ks.Nodup) :
    (addKey ks k).Nodup := by
  by_cases hk : k ∈ ks
  · simpa [addKey, hk] using h
  · rw [addKey, if_neg hk, List.nodup_append]
    refine ⟨h, List.nodup_singleton k, ?_⟩
    intro a ha hb
    rw [List.mem_singleton] at hb
    subst hb
    exact hk ha

theorem firstSeen_nodup (l : List String) :
    ∀ ks : List String, ks.Nodup → (firstSeen ks l).Nodup := by
  induction l with
  | nil => intro ks h; simpa [firstSeen] using h
  | cons x xs ih =>
    intro ks h
    simpa [firstSeen] using ih (addKey ks x) (addKey_nodup ks x h)

theorem runStream_keys_nodup (play : PlayMode) (decode : String → AudioBuffer)
    (chunks : List SnippetChunk) :
    (((runStream play decode chunks).generationAudio).map Prod.fst).Nodup := by
  rw [runStream, foldl_keys]
  exact firstSeen_nodup _ _ (by simp)

theorem foldl_played_truthy (play : PlayMode) (decode : String → AudioBuffer)
    (chunks : List SnippetChunk) :
    ∀ (st : StreamState) (fid : String), st.firstGenerationId = some fid → fid ≠ "" →
      (chunks.foldl (processChunk play decode) st).played =
        st.played ++ playedSpecFrom play decode fid chunks := by
  induction chunks with
  | nil => intro st fid h hf; simp [playedSpecFrom]
  | cons c cs ih =>
    intro st fid h hf
    rw [List.foldl_cons,
      ih _ fid (processChunk_first_of_truthy play decode st c fid h hf) hf,
      processChunk_played_of_truthy play decode st c fid h hf]
    by_cases h2 : c.audio = ""
    · simp [playedSpecFrom, List.filterMap_cons, h2]
    · by_cases h3 : play = .first ∧ c.generationId ≠ fid
      · simp [playedSpecFrom, List.filterMap_cons, h2, h3]
      · simp [playedSpecFrom, List.filterMap_cons, h2, h3]

theorem foldl_played_falsy (play : PlayMode) (decode : String → AudioBuffer)
    (chunks : List SnippetChunk) :
    ∀ st : StreamState, truthyStr st.firstGenerationId = false →
      (chunks.foldl (processChunk play decode) st).played =
        st.played ++ playedSpec play decode chunks := by
  induction chunks with
  | nil => intro st h; simp [playedSpec]
  | cons c cs ih =>
    intro st h
    rw [List.foldl_cons]
    by_cases hg : c.generationId = ""
    · have h1 : truthyStr (processChunk play decode st c).firstGenerationId = false := by
        rw [processChunk_first_of_falsy play decode st c h, hg]
        simp [truthyStr]
      rw [ih _ h1, processChunk_played_of_falsy play decode st c h]
      by_cases h2 : c.audio = "" <;> simp [playedSpec, hg, h2]
    · rw [foldl_played_truthy play decode cs _ c.generationId
          (processChunk_first_of_falsy play decode st c h) hg,
        processChunk_played_of_falsy play decode st c h]
      by_cases h2 : c.audio = "" <;> simp [playedSpec, hg, h2]

theorem runStream_played (play : PlayMode) (decode : String → AudioBuffer)
    (chunks : List SnippetChunk) :
    (runStream play decode chunks).played = playedSpec play decode chunks := by
  rw [runStream]
  simpa using foldl_played_falsy play decode chunks {} rfl

/-- C3. After the streaming channel closes, the driver writes exactly one
output file per generation id that contributed at least one non-empty chunk
(`genChunksSpec` is the arrival-ordered list of its decoded non-empty
payloads): the number of files for a generation id is 1 when that list is
non-empty and 0 otherwise, every file of that generation id contains exactly
the concatenation of that list, and under a directory output plan its path is
`{dir}/{prefix}{generationId}.{format}`. -/
theorem claim3_one_file_per_generation (play : PlayMode) (decode : String → AudioBuffer)
    (chunks : List SnippetChunk) (n : Nat) (d p : String) (fmt : AudioFormat)
    (gid : String) :
    ((streamWrittenFiles (.dir n d p fmt) (runStream play decode chunks)).countP
        fun f => f.generationId == gid)
      = (if genChunksSpec decode chunks gid = [] then 0 else 1) ∧
    (∀ f ∈ streamWrittenFiles (.dir n d p fmt) (runStream play decode chunks),
      f.generationId = gid →
        f.data = (genChunksSpec decode chunks gid).flatten ∧
        f.path = d ++ "/" ++ p ++ gid ++ "." ++ fmt.ext) := by
  have hnd := runStream_keys_nodup play decode chunks
  have hlk := runStream_generationAudio play decode chunks gid
  constructor
  · have hcount : ((streamWrittenFiles (.dir n d p fmt) (runStream play decode chunks)).countP
        fun f => f.generationId == gid)
        = (((runStream play decode chunks).generationAudio).map Prod.fst).count gid := by
      rw [streamWrittenFiles, List.countP_map, List.count, List.countP_map]
      rfl
    rw [hcount, List.count_eq_of_nodup hnd]
    by_cases hspec : genChunksSpec decode chunks gid = []
    · have hnone : alookup ((runStream play decode chunks).generationAudio) gid = none := by
        rw [hlk, hspec]
        rfl
      have hmem : gid ∉ ((runStream play decode chunks).generationAudio).map Prod.fst := by
        intro hm
        have := (alookup_isSome_iff_mem_keys _ _).mpr hm
        rw [hnone] at this
        cases this
      simp [hspec, hmem]
    · have hsome : (alookup ((runStream play decode chunks).generationAudio) gid).isSome := by
        rw [hlk, optAppend, if_neg hspec]
        rfl
      have hmem := (alookup_isSome_iff_mem_keys _ _).mp hsome
      simp [hspec, hmem]
  · intro f hf hgid
    rw [streamWrittenFiles] at hf
    obtain ⟨e, he, hfe⟩ := List.mem_map.mp hf
    obtain ⟨k, v⟩ := e
    subst hfe
    simp only at hgid
    subst hgid
    have halk := alookup_eq_of_mem_nodup _ k v hnd he
    rw [hlk] at halk
    have hspec : genChunksSpec decode chunks k ≠ [] := by
      intro hh
      rw [hh] at halk
      cases halk
    rw [optAppend, if_neg hspec] at halk
    injection halk with hv
    constructor
    · simp only
      rw [← hv]
      simp
    · simp [generationPath, joinPath, String.append_assoc]

/-- Witness for C3: two chunks of one generation produce exactly one combined
file whose contents are both decoded payloads concatenated in arrival order,
named `{dir}/{prefix}{generationId}.{format}`. -/
theorem claim3_witness :
    streamWrittenFiles (.dir 2 "out" "pre-" .wav)
        (runStream .all sampleDecode [⟨"gen_1", "aa"⟩, ⟨"gen_1", "bb"⟩])
      = [{ generationId := "gen_1", path := "out/pre-gen_1.wav",
           data := [97, 97, 98, 98] }] ∧
    ((streamWrittenFiles (.dir 2 "out" "pre-" .wav)
        (runStream .all sampleDecode [⟨"gen_1", "aa"⟩, ⟨"gen_1", "bb"⟩])).countP
        fun f => f.generationId == "gen_1") = 1 := by
  constructor
  · decide
  · rw [(claim3_one_file_per_generation .all sampleDecode
      [⟨"gen_1", "aa"⟩, ⟨"gen_1", "bb"⟩] 2 "out" "pre-" .wav "gen_1").1]
    decide

/-- C4. Empty-audio chunks are skipped without aborting the stream: the
buffers handed to the player sink are exactly `playedSpec` (the decoded
non-empty payloads, restricted in play mode first to the first observed
generation, where "first observed" follows the source's JavaScript truthiness
test and so is the first non-empty generation id), and each generation
accumulates exactly its decoded non-empty payloads; concretely, one
generation arriving as [non-empty, empty, non-empty] gets exactly 2 playback
writes and one combined file holding the 2 non-empty payloads concatenated. -/
theorem claim4_empty_chunks_skipped (play : PlayMode) (decode : String → AudioBuffer)
    (chunks : List SnippetChunk) (g a1 a2 : String) (h1 : a1 ≠ "") (h2 : a2 ≠ "") :
    (runStream play decode chunks).played = playedSpec play decode chunks ∧
    (∀ gid, alookup ((runStream play decode chunks).generationAudio) gid
      = optAppend none (genChunksSpec decode chunks gid)) ∧
    ((runStream play decode [⟨g, a1⟩, ⟨g, ""⟩, ⟨g, a2⟩]).played.length = 2 ∧
      streamWrittenFiles (.dir 1 "./tts-audio" "tts-" .wav)
          (runStream play decode [⟨g, a1⟩, ⟨g, ""⟩, ⟨g, a2⟩])
        = [{ generationId := g,
             path := joinPath "./tts-audio" ("tts-" ++ g ++ "." ++ AudioFormat.ext .wav),
             data := decode a1 ++ decode a2 }]) := by
  refine ⟨runStream_played play decode chunks,
    fun gid => runStream_generationAudio play decode chunks gid, ?_, ?_⟩
  · rw [runStream_played]
    by_cases hg : g = "" <;>
      simp [playedSpec, playedSpecFrom, List.filterMap_cons, h1, h2, hg]
  · have hga : (runStream play decode [⟨g, a1⟩, ⟨g, ""⟩, ⟨g, a2⟩]).generationAudio
        = [(g, [decode a1, decode a2])] := by
      show (List.foldl (processChunk play decode) {} _).generationAudio = _
      rw [List.foldl_cons, List.foldl_cons, List.foldl_cons, List.foldl_nil,
        processChunk_generationAudio, processChunk_generationAudio,
        processChunk_generationAudio]
      simp [mapAppend, h1, h2]
    rw [streamWrittenFiles, hga]
    simp [generationPath]

/-- Witness for C4: the concrete non-empty payloads "x" and "y" around an
empty chunk. -/
theorem claim4_witness :
    (runStream .all sampleDecode [⟨"g", "x"⟩, ⟨"g", ""⟩, ⟨"g", "y"⟩]).played.length = 2 ∧
    streamWrittenFiles (.dir 1 "./tts-audio" "tts-" .wav)
        (runStream .all sampleDecode [⟨"g", "x"⟩, ⟨"g", ""⟩, ⟨"g", "y"⟩])
      = [{ generationId := "g",
           path := joinPath "./tts-audio" ("tts-" ++ "g" ++ "." ++ AudioFormat.ext .wav),
           data := sampleDecode "x" ++ sampleDecode "y" }] := by
  exact (claim4_empty_chunks_skipped .all sampleDecode [⟨"g", "x"⟩] "g" "x" "y"
    (by decide) (by decide)).2.2

/-- C7 (counterexample to the original claim). A stream whose only chunk has
generation id gen_1 but an empty audio payload: gen_1 was observed in a
chunk, yet the saved history id list is empty, because the accumulator `Map`
only ever gains a key on a non-empty chunk. -/
theorem claim7_counterexample :
    (streamSavedHistory 0 (runStream .all sampleDecode [⟨"gen_1", ""⟩])).ids = [] ∧
    "gen_1" ∈ ([⟨"gen_1", ""⟩] : List SnippetChunk).map SnippetChunk.generationId := by
  exact ⟨rfl, by decide⟩

/-- C7 (amended). After a streaming synthesis the saved history record
contains exactly the generation ids that contributed at least one non-empty
audio chunk, in order of their first non-empty chunk, together with the
timestamp of the save. -/
theorem claim7_history_ids (play : PlayMode) (decode : String → AudioBuffer)
    (chunks : List SnippetChunk) (now : Nat) :
    streamSavedHistory now (runStream play decode chunks)
      = { ids := firstSeen [] (nonEmptyGids chunks), timestamp := now } := by
  rw [streamSavedHistory, runStream, foldl_keys]
  rfl
